import Mathlib

/-!
Verification development for the `epo_utils` EPO-OPS API client.

The Python modules `epo_utils/api.py`, `epo_utils/ops/api.py`,
`epo_utils/constants.py` and `epo_utils/exceptions.py` are embedded
shallowly: pure functions become Lean functions, the mutable client
object becomes explicit state passing, raised exceptions become an
error type, and wall-clock readings (`datetime.now()`) become explicit
integer timestamps measured in microseconds.
-/

namespace EpoUtils

/-- An HTTP response as seen by the client: status code, headers
(a key-value list modelling the header dict) and body text. -/
structure Response where
  status : Nat
  headers : List (String × String)
  text : String
  deriving DecidableEq, Repr

/-- Header lookup, modelling `response.headers[key]` / `.get(key)`. -/
def Response.header (r : Response) (key : String) : Option String :=
  r.headers.lookup key

/-- Exceptions raised by the embedded code, modelling the Python
exception classes of `epo_utils/exceptions.py` together with the
built-in exceptions the source can raise. `httpError` models
`requests.HTTPError` and carries the offending response. -/
inductive PyError where
  | valueError (msg : String)
  | keyError (key : String)
  | attributeError
  | zeroDivisionError
  | indexError
  | httpError (resp : Response)
  | quotaPerHourExceeded (text : String)
  | quotaPerWeekExceeded (text : String)
  | fetchFailed (msg : String)
  | resourceNotFound (msg : String)
  deriving DecidableEq, Repr

/-- `constants.VALID_ENDPOINTS` from `epo_utils/constants.py`. -/
def VALID_ENDPOINTS : List String :=
  ["fulltext", "claims", "description", "images", "equivalents",
   "biblio", "abstract", ""]

/-- `constants.VALID_IDTYPES` from `epo_utils/constants.py`. -/
def VALID_IDTYPES : List String :=
  ["epodoc", "docdb", "original", "classification"]

/-- Numeric value of an ASCII digit character. -/
def digitVal (c : Char) : Nat := c.toNat - 48

/-- Value of a list of ASCII digit characters read in base 10. -/
def natOfDigits (cs : List Char) : Nat :=
  cs.foldl (fun a c => a * 10 + digitVal c) 0

/-- Proleptic-Gregorian leap-year rule, as used by `datetime`. -/
def isLeapYear (y : Nat) : Bool :=
  y % 4 == 0 && (y % 100 != 0 || y % 400 == 0)

/-- Number of days of month `m` in year `y` (proleptic Gregorian). -/
def daysInMonth (y m : Nat) : Nat :=
  if m == 2 then (if isLeapYear y then 29 else 28)
  else if m == 4 || m == 6 || m == 9 || m == 11 then 30
  else 31

/-- Models the date validation of `APIInput.__init__`:
`datetime.strptime(date, "%Y%m%d")` succeeding and `len(date) == 8`.
An 8-character string passes exactly when it is all ASCII digits,
split 4+2+2, the year is at least 1, the month in 1..12, and the day
valid for that month and year (so that `datetime(y, m, d)` exists). -/
def validDate8 (s : String) : Bool :=
  match s.toList with
  | [y1, y2, y3, y4, m1, m2, d1, d2] =>
    ([y1, y2, y3, y4, m1, m2, d1, d2].all Char.isDigit) &&
    (let y := natOfDigits [y1, y2, y3, y4]
     let m := natOfDigits [m1, m2]
     let d := natOfDigits [d1, d2]
     decide (1 ≤ y) && decide (1 ≤ m) && decide (m ≤ 12) &&
     decide (1 ≤ d) && decide (d ≤ daysInMonth y m))
  | _ => false

/-- Models Python `not s.strip()`: the string is empty or whitespace
(the default `strip` removes leading and trailing whitespace, so the
result is empty exactly when every character is whitespace). -/
def isBlank (s : String) : Bool := s.toList.all Char.isWhitespace

/-- API input value of `epo_utils/api.py` (the ops variant in
`epo_utils/ops/api.py` has identical fields and validation). -/
structure APIInput where
  id_type : String
  number : String
  kind : Option String
  country : Option String
  date : Option String
  deriving DecidableEq, Repr

/-- True when an optional field is present but fails predicate-free
date validation, modelling the `date is not None` guarded strptime
check of `APIInput.__init__`. -/
def badDate : Option String → Bool
  | none => false
  | some d => !(validDate8 d)

/-- True when an optional field is present but blank, modelling the
`x is not None and not x.strip()` checks of `APIInput.__init__`. -/
def presentBlank : Option String → Bool
  | none => false
  | some s => isBlank s

/-- `APIInput.__init__` of `epo_utils/api.py`: validates the fields in
source order (id_type, date, country, kind) and stores them. -/
def APIInput.init (id_type number : String) (kind country date : Option String) :
    Except PyError APIInput :=
  if VALID_IDTYPES.contains id_type = false then
    .error (.valueError ("invalid id_type: " ++ id_type))
  else if badDate date then
    .error (.valueError "date must be in YYYYMMDD-format")
  else if presentBlank country then
    .error (.valueError "country cant be empty if provided")
  else if presentBlank kind then
    .error (.valueError "kind cant be empty if provided")
  else
    .ok ⟨id_type, number, kind, country, date⟩

/-- The possibly parenthesized number used by `to_id`:
wrapped in parentheses when the number contains a comma, period or
slash and the id-type is not classification. -/
def APIInput.displayNumber (a : APIInput) : String :=
  if (a.number.toList.contains ',' || a.number.toList.contains '.'
        || a.number.toList.contains '/')
      && a.id_type != "classification" then
    "(" ++ a.number ++ ")"
  else
    a.number

/-- The non-null parts in source order country, number, kind, date,
with the number already parenthesized as needed. -/
def APIInput.parts (a : APIInput) : List String :=
  [a.country, some a.displayNumber, a.kind, a.date].filterMap id

/-- Replace every space by the three characters `%20`, modelling
`str.replace(" ", "%20")`. -/
def percentEncodeSpaces : List Char → List Char
  | [] => []
  | c :: cs =>
    if c == ' ' then '%' :: '2' :: '0' :: percentEncodeSpaces cs
    else c :: percentEncodeSpaces cs

/-- String-level wrapper of `percentEncodeSpaces`. -/
def pyReplaceSpace (s : String) : String := (percentEncodeSpaces s.toList).asString

/-- `APIInput.to_id` of `epo_utils/api.py`: the epodoc branch joins
all parts but the last without separator and then appends a period
followed by the date when a date is present. -/
def APIInput.to_id (a : APIInput) : Except PyError String :=
  let parts := a.parts
  if a.id_type == "original" then
    .ok (pyReplaceSpace (String.intercalate "." parts))
  else if a.id_type == "docdb" then
    .ok (String.intercalate "." parts)
  else if a.id_type == "epodoc" then
    match a.date with
    | some d => .ok (String.join parts.dropLast ++ "." ++ d)
    | none => .ok (String.join parts)
  else if a.id_type == "classification" then
    .ok a.displayNumber
  else
    .error (.valueError ("invalid id_type: " ++ a.id_type))

/-- `APIInput.to_id` of `epo_utils/ops/api.py`: identical to the
top-level variant except that the epodoc branch always joins all
parts without separator, date included. -/
def APIInput.ops_to_id (a : APIInput) : Except PyError String :=
  let parts := a.parts
  if a.id_type == "original" then
    .ok (pyReplaceSpace (String.intercalate "." parts))
  else if a.id_type == "docdb" then
    .ok (String.intercalate "." parts)
  else if a.id_type == "epodoc" then
    .ok (String.join parts)
  else if a.id_type == "classification" then
    .ok a.displayNumber
  else
    .error (.valueError ("invalid id_type: " ++ a.id_type))

/-- The formatting rules of spec section 4.2, written from the words
of the spec: collect the non-null parts in order country, number,
kind, date; original joins with a period and percent-encodes spaces;
docdb joins with a period; epodoc with a date concatenates
country+number+kind without separator and appends a period plus the
date, and otherwise concatenates all parts; classification returns
the (possibly parenthesized) number alone. -/
def specToId (a : APIInput) : String :=
  let number := a.displayNumber
  if a.id_type == "original" then
    pyReplaceSpace (String.intercalate "." a.parts)
  else if a.id_type == "docdb" then
    String.intercalate "." a.parts
  else if a.id_type == "epodoc" then
    match a.date with
    | some d =>
      String.join ([a.country, some number, a.kind].filterMap id) ++ "." ++ d
    | none => String.join a.parts
  else if a.id_type == "classification" then
    number
  else
    ""

/-- Drop leading and trailing whitespace from a character list,
modelling Python `str.strip()`. -/
def stripChars (cs : List Char) : List Char :=
  ((cs.dropWhile Char.isWhitespace).reverse.dropWhile Char.isWhitespace).reverse

/-- Models Python `int(s)` on header strings: optional surrounding
whitespace, an optional sign, then at least one ASCII digit. -/
def parsePyInt (s : String) : Option Int :=
  match stripChars s.toList with
  | [] => none
  | c :: rest =>
    if c == '-' then
      if rest.isEmpty || !(rest.all Char.isDigit) then none
      else some (-(natOfDigits rest : Int))
    else if c == '+' then
      if rest.isEmpty || !(rest.all Char.isDigit) then none
      else some ((natOfDigits rest : Int))
    else if (c :: rest).all Char.isDigit then some ((natOfDigits (c :: rest) : Int))
    else none

/-- Mutable state of `EPOClient`: the two quota counters and the
`_last_call` / `_next_call` bucket dictionaries. Times are absolute
timestamps in microseconds (the resolution of `datetime`). -/
structure ClientState where
  quota_per_hour_used : Int
  quota_per_week_used : Int
  last_call : List (String × Option Int)
  next_call : List (String × Option Int)
  deriving DecidableEq, Repr

/-- The five throttling buckets, all initially without a recorded
call, as set up in `EPOClient.__init__`. -/
def initBuckets : List (String × Option Int) :=
  [("search", none), ("retrieval", none), ("inpadoc", none),
   ("images", none), ("other", none)]

/-- Client state directly after construction. -/
def ClientState.initial : ClientState := ⟨0, 0, initBuckets, initBuckets⟩

/-- Dictionary assignment `d[k] = v`: replaces the binding of the
first occurrence of the key, appending a new binding when the key is
absent (Python dicts keep insertion order). -/
def dictSet : List (String × Option Int) → String → Option Int →
    List (String × Option Int)
  | [], k, v => [(k, v)]
  | p :: ds, k, v => if p.1 == k then (k, v) :: ds else p :: dictSet ds k v

/-- Microseconds per day; `timedelta.seconds` and `.microseconds`
are the remainder of the delta after whole days are removed. -/
def microsPerDay : Nat := 86400000000

/-- Models `time.sleep(diff.seconds + diff.microseconds / 1e6)` for a
positive `diff` given in microseconds: whole days are dropped by the
`timedelta` field access. -/
def timedeltaSleepMicros (diff : Int) : Nat := diff.toNat % microsPerDay

/-- Duration slept by `_throttled_call` before dispatch when the first
clock reading is `now`: nonzero exactly when the bucket has a recorded
next-call time lying in the future. -/
def throttleSleepMicros (st : ClientState) (service : String) (now : Int) : Nat :=
  match st.next_call.lookup service with
  | some (some nc) => if now < nc then timedeltaSleepMicros (nc - now) else 0
  | _ => 0

/-- The moment the HTTP request is issued when `_throttled_call` is
entered at `now` and the sleep suspends for exactly the requested
duration. -/
def dispatchTime (st : ClientState) (service : String) (now : Int) : Int :=
  now + throttleSleepMicros st service now

/-- True for characters matched by the regex class `[a-z]`. -/
def isLowerAlpha (c : Char) : Bool := 'a' ≤ c && c ≤ 'z'

/-- Consume an exact literal character sequence, or fail. -/
def dropLiteral : List Char → List Char → Option (List Char)
  | [], cs => some cs
  | _, [] => none
  | p :: ps, c :: cs => if p == c then dropLiteral ps cs else none

/-- Try to match the pattern `<service>=([a-z]+):(\d+)` at the start
of `cs`, returning the numeric value of the greedy digit group. The
greedy matches need no backtracking because a colon is not a lowercase
letter and the digit group ends the pattern. -/
def throttleMatchAt (service : List Char) (cs : List Char) : Option Nat :=
  match dropLiteral (service ++ ['=']) cs with
  | none => none
  | some rest =>
    let color := rest.takeWhile isLowerAlpha
    if color.isEmpty then none
    else
      match rest.drop color.length with
      | ':' :: rest2 =>
        let digits := rest2.takeWhile Char.isDigit
        if digits.isEmpty then none else some (natOfDigits digits)
      | _ => none

/-- Models `re.search(r"<service>=([a-z]+):(\d+)", header)`: the
leftmost match wins. The bucket names contain no regex metacharacters
so the service segment is matched literally. -/
def searchThrottle (service : List Char) : List Char → Option Nat
  | [] => throttleMatchAt service []
  | c :: cs =>
    match throttleMatchAt service (c :: cs) with
    | some n => some n
    | none => searchThrottle service cs

/-- `raise_for_quota_rejection` of `epo_utils/api.py`: returns the
exception to raise, if any, for the given response. -/
def raise_for_quota_rejection (resp : Response) : Option PyError :=
  if resp.status != 403 then none
  else
    match resp.header "X-Rejection-Reason" with
    | none => none
    | some r =>
      if r == "RegisteredQuotaPerWeek" then some (.quotaPerWeekExceeded resp.text)
      else if r == "IndividualQuotaPerHour" then some (.quotaPerHourExceeded resp.text)
      else none

/-- Models `response.raise_for_status()`: an `HTTPError` is raised
exactly for status codes 400-599. -/
def isErrorStatus (s : Nat) : Bool := decide (400 ≤ s) && decide (s < 600)

/-- The throttling delta of `_throttled_call` in microseconds:
`delay = 60 / n` seconds, `seconds = int(delay)`,
`milliseconds = int((delay - seconds) * 1e3)`, packed into a
`timedelta(seconds, milliseconds)`. The float arithmetic of the
source is modelled as exact rational arithmetic, under which
`int(delay)` is `60 / n` in natural division and the millisecond part
equals `60000 / n - 1000 * (60 / n)`. -/
def nextDeltaMicros (n : Nat) : Nat :=
  let seconds := 60 / n
  let milliseconds := 60000 / n - 1000 * seconds
  (seconds * 1000 + milliseconds) * 1000

/-- `EPOClient._throttled_call` of `epo_utils/api.py` after the sleep:
`t2` is the second clock reading, taken immediately before the HTTP
request is issued and stored as the last-call time; `resp` is the
response the external HTTP call returned. Returns the updated client
state together with the returned response or the raised exception;
the state reflects all mutations made before a raise. -/
def throttledCall (st : ClientState) (service : String) (t2 : Int)
    (resp : Response) : ClientState × Except PyError Response :=
  if (st.last_call.lookup service).isNone then
    (st, .error (.valueError ("Invalid service: " ++ service)))
  else
    let st1 := { st with last_call := dictSet st.last_call service (some t2) }
    if isErrorStatus resp.status then
      if resp.status == 403 then
        match raise_for_quota_rejection resp with
        | some e => (st1, .error e)
        | none => (st1, .error (.httpError resp))
      else (st1, .error (.httpError resp))
    else
      match resp.header "X-Throttling-Control" with
      | none => (st1, .error (.keyError "X-Throttling-Control"))
      | some hdr =>
        match searchThrottle service.toList hdr.toList with
        | none => (st1, .error .attributeError)
        | some n =>
          if n == 0 then (st1, .error .zeroDivisionError)
          else
            let st2 := { st1 with
              next_call := dictSet st1.next_call service
                (some (t2 + (nextDeltaMicros n : Int))) }
            match resp.header "X-IndividualQuotaPerHour-Used" with
            | none => (st2, .error (.keyError "X-IndividualQuotaPerHour-Used"))
            | some qh =>
              match resp.header "X-RegisteredQuotaPerWeek-Used" with
              | none => (st2, .error (.keyError "X-RegisteredQuotaPerWeek-Used"))
              | some qw =>
                match parsePyInt qh, parsePyInt qw with
                | some h, some w =>
                  ({ st2 with quota_per_hour_used := h,
                              quota_per_week_used := w }, .ok resp)
                | _, _ => (st2, .error (.valueError "invalid literal for int"))

/-- The `Services` enum of `epo_utils/ops.py`. -/
inductive Services where
  | Family
  | Numbers
  | Published
  | PublishedSearch
  | Register
  | RegisterSearch
  | Classification
  deriving DecidableEq, Repr

/-- URL infix of each service. -/
def Services.value : Services → String
  | .Family => "family"
  | .Numbers => "number-service"
  | .Published => "published-data"
  | .PublishedSearch => "published-data/search"
  | .Register => "register"
  | .RegisterSearch => "register/search"
  | .Classification => "classification/cpc"

/-- The `ReferenceType` enum of `epo_utils/ops.py`. -/
inductive ReferenceType where
  | Publication
  | Application
  | Priority
  deriving DecidableEq, Repr

/-- URL segment of each reference type. -/
def ReferenceType.value : ReferenceType → String
  | .Publication => "publication"
  | .Application => "application"
  | .Priority => "priority"

/-- `build_ops_url` of `epo_utils/api.py`. `filter(None, url_parts)`
drops both missing segments and empty strings, so no empty path
component is ever produced; the base URL constant is inlined. The
source guard `id_type if input is not None else None` compares the
built-in `input` function, which is never None, so the id-type
segment is kept whenever present. -/
def build_ops_url (service : Option Services)
    (reference_type : Option ReferenceType) (id_type : Option String)
    (endpoint : Option String) (options : Option (List String)) : String :=
  let url_parts : List (Option String) :=
    [some "https://ops.epo.org/3.1/rest-services",
     service.map Services.value,
     reference_type.map ReferenceType.value,
     id_type,
     endpoint,
     options.map (String.intercalate ",")]
  let present_parts := (url_parts.filterMap id).filter (fun s => s != "")
  String.intercalate "/" present_parts

/-- The duck-typed `api_input` argument of `EPOClient.fetch`: either a
single `APIInput` (the `TypeError` branch of the source) or a list. -/
inductive ApiInputArg where
  | single (a : APIInput)
  | many (l : List APIInput)
  deriving DecidableEq, Repr

/-- The `input_text` computed by `EPOClient.fetch`: the comma-joined
ids of the inputs; any error raised by `to_id` propagates. -/
def inputText : ApiInputArg → Except PyError String
  | .single a => a.to_id
  | .many l => do
    let ids ← l.mapM APIInput.to_id
    pure (String.intercalate "," ids)

/-- The `id_types` set computed by `EPOClient.fetch`, as a duplicate
free list in first-occurrence order. -/
def idTypes : ApiInputArg → List String
  | .single a => [a.id_type]
  | .many l => (l.map APIInput.id_type).eraseDups

/-- `EPOClient.fetch` of `epo_utils/api.py`. The `isinstance` checks
on `service` and `ref_type` always pass in this typed embedding. The
HTTP call itself is external: `resp` is the response it returned and
`t2` the clock reading stored as the last-call time of the
"retrieval" bucket by the underlying `_throttled_call`. A 404
`HTTPError` is converted to `FetchFailed(input_text)`; every other
exception propagates unchanged. -/
def fetch (st : ClientState) (service : Services) (ref_type : ReferenceType)
    (api_input : ApiInputArg) (endpoint : String) (options : List String)
    (t2 : Int) (resp : Response) : ClientState × Except PyError Response :=
  if VALID_ENDPOINTS.contains endpoint = false then
    (st, .error (.valueError ("invalid endpoint: " ++ endpoint)))
  else
    match inputText api_input with
    | .error e => (st, .error e)
    | .ok input_text =>
      let types := idTypes api_input
      if 1 < types.length then
        (st, .error (.valueError "non-matching id-types"))
      else
        match types with
        | [] => (st, .error (.keyError "pop from an empty set"))
        | t :: _ =>
          let _url := build_ops_url (some service) (some ref_type) (some t)
            (some endpoint) (some options)
          match throttledCall st "retrieval" t2 resp with
          | (st1, .error (.httpError r)) =>
            if r.status == 404 then (st1, .error (.fetchFailed input_text))
            else (st1, .error (.httpError r))
          | (st1, .error e) => (st1, .error e)
          | (st1, .ok r) => (st1, .ok r)

/-- A Python value that is either an int or a string, used to model
the elements of the dynamically-typed `fetch_range` argument. -/
inductive PyVal where
  | int (i : Int)
  | str (s : String)
  deriving DecidableEq, Repr

/-- Models `isinstance(v, int)`. -/
def PyVal.isInt : PyVal → Bool
  | .int _ => true
  | .str _ => false

/-- Models `"{}".format(v)`. -/
def PyVal.fmt : PyVal → String
  | .int i => toString i
  | .str s => s

/-- The `fetch_range` validation condition of `EPOClient.search`, kept
with the operator precedence of the source:
`not len(fetch_range) == 2 and all(isinstance(i, int) for i in fetch_range)`
parses as `(not (len(fetch_range) == 2)) and all(...)`, so the
`ValueError` is raised only when the length differs from two AND all
elements are ints. -/
def fetchRangeRejected (fetch_range : List PyVal) : Bool :=
  (!(fetch_range.length == 2)) && fetch_range.all PyVal.isInt

/-- The value of the `X-OPS-Range` header built by `EPOClient.search`
via `"{}-{}".format(*fetch_range)`: positional formatting uses the
first two elements, ignores extras, and raises `IndexError` when
fewer than two arguments are supplied. -/
def rangeHeaderValue (fetch_range : List PyVal) : Except PyError String :=
  match fetch_range with
  | a :: b :: _ => .ok (a.fmt ++ "-" ++ b.fmt)
  | _ => .error .indexError

/-- `EPOClient.search` of `epo_utils/api.py`. The `endpoint` argument
is modelled in its already-listified form (a bare string is wrapped
into a one-element list by the source). The dispatch goes to the
"search" bucket; `t2` and `resp` are as in `throttledCall`. -/
def search (st : ClientState) (_query : String) (fetch_range : List PyVal)
    (service : Services) (endpoint : List String) (t2 : Int)
    (resp : Response) : ClientState × Except PyError Response :=
  match endpoint.find? (fun e => !(VALID_ENDPOINTS.contains e)) with
  | some bad => (st, .error (.valueError ("invalid endpoint: " ++ bad)))
  | none =>
    if fetchRangeRejected fetch_range then
      (st, .error (.valueError "invalid fetch_range"))
    else
      match rangeHeaderValue fetch_range with
      | .error e => (st, .error e)
      | .ok _range_header =>
        let _url := build_ops_url (some service) none none none (some endpoint)
        throttledCall st "search" t2 resp

/-- True exactly for the `ResourceNotFound` error kind. -/
def PyError.isResourceNotFound : PyError → Bool
  | .resourceNotFound _ => true
  | _ => false

/-- A sample successful response carrying throttle and quota headers
for the "retrieval" bucket. -/
def okRetrievalResponse : Response :=
  ⟨200, [("X-Throttling-Control", "retrieval=green:7"),
         ("X-IndividualQuotaPerHour-Used", "11"),
         ("X-RegisteredQuotaPerWeek-Used", "222")], "body"⟩

/-- A sample 500 response that still carries quota headers. -/
def errRetrievalResponse : Response :=
  ⟨500, [("X-IndividualQuotaPerHour-Used", "11"),
         ("X-RegisteredQuotaPerWeek-Used", "222")], "oops"⟩

/-- A 403 response signalling the weekly quota rejection. -/
def forbiddenWeekResponse : Response :=
  ⟨403, [("X-Rejection-Reason", "RegisteredQuotaPerWeek")], "denied"⟩

/-- A bare 404 response. -/
def notFoundResponse : Response := ⟨404, [], "not found"⟩

/-- A 303 redirect response carrying the headers throttling needs. -/
def redirectResponse : Response :=
  ⟨303, [("X-Throttling-Control", "retrieval=green:7"),
         ("X-IndividualQuotaPerHour-Used", "1"),
         ("X-RegisteredQuotaPerWeek-Used", "2")], "see other"⟩

/-- A successful search response with the headers throttling needs. -/
def okSearchResponse : Response :=
  ⟨200, [("X-Throttling-Control", "search=green:30"),
         ("X-IndividualQuotaPerHour-Used", "1"),
         ("X-RegisteredQuotaPerWeek-Used", "2")], "results"⟩

/-- A sample single docdb input. -/
def sampleInput : ApiInputArg :=
  .single ⟨"docdb", "1000000", some "A1", some "EP", none⟩

/-- A state with a pending next-call time for the search bucket. -/
def scheduledState : ClientState :=
  { ClientState.initial with
    next_call := [("search", some 5000), ("retrieval", none), ("inpadoc", none),
                  ("images", none), ("other", none)] }

end EpoUtils

namespace EpoUtils

/-! ### General lemmas about the embedded definitions -/

theorem contains_iff_mem (l : List String) (s : String) :
    l.contains s = true ↔ s ∈ l := by
  simp [List.contains, List.elem_eq_mem]

theorem badDate_iff (d : Option String) :
    badDate d = true ↔ ∃ s, d = some s ∧ validDate8 s = false := by
  cases d <;> simp [badDate]

theorem presentBlank_iff (c : Option String) :
    presentBlank c = true ↔ ∃ s, c = some s ∧ isBlank s = true := by
  cases c <;> simp [presentBlank]

theorem init_error_iff (it n : String) (k c d : Option String) :
    (∃ m, APIInput.init it n k c d = .error (.valueError m)) ↔
      (VALID_IDTYPES.contains it = false ∨ badDate d = true ∨
       presentBlank c = true ∨ presentBlank k = true) := by
  unfold APIInput.init
  split_ifs with h1 h2 h3 h4 <;> simp_all

theorem init_ok_inv {it n : String} {k c d : Option String} {a : APIInput}
    (h : APIInput.init it n k c d = .ok a) :
    a = ⟨it, n, k, c, d⟩ ∧ VALID_IDTYPES.contains it = true := by
  unfold APIInput.init at h
  split_ifs at h with h1 h2 h3 h4
  refine ⟨(Except.ok.inj h).symm, ?_⟩
  simpa using h1

theorem parts_dropLast_of_date (c k : Option String) (num d : String) :
    ([c, some num, k, some d].filterMap id).dropLast =
      [c, some num, k].filterMap id := by
  cases c <;> cases k <;> rfl

theorem to_id_eq_spec_of_valid (a : APIInput)
    (h : VALID_IDTYPES.contains a.id_type = true) :
    a.to_id = Except.ok (specToId a) := by
  have hm : a.id_type ∈ VALID_IDTYPES := (contains_iff_mem _ _).mp h
  simp only [VALID_IDTYPES, List.mem_cons, List.mem_singleton,
    List.not_mem_nil, or_false] at hm
  unfold APIInput.to_id specToId
  rcases hm with h1 | h1 | h1 | h1 <;> rw [h1] <;> simp only [] <;>
    first
    | rfl
    | (cases hd : a.date with
       | none => simp [APIInput.parts, hd]
       | some d =>
         simp only [APIInput.parts, hd]
         rw [parts_dropLast_of_date]
         rfl)

theorem lookup_dictSet_self (d : List (String × Option Int)) (k : String)
    (v : Option Int) : (dictSet d k v).lookup k = some v := by
  induction d with
  | nil => simp [dictSet, List.lookup]
  | cons p ds ih =>
    unfold dictSet
    by_cases h : p.1 == k
    · simp [h, List.lookup]
    · have hne : p.1 ≠ k := by simpa using h
      have hk : (k == p.1) = false := by simpa using Ne.symm hne
      simp [h, hk, List.lookup, ih]

theorem throttledCall_success (st : ClientState) (service : String)
    (old : Option Int) (t2 : Int) (resp : Response) (hdr : String) (n : Nat)
    (sh sw : String) (qh qw : Int)
    (hold : st.last_call.lookup service = some old)
    (herr : isErrorStatus resp.status = false)
    (hthr : resp.header "X-Throttling-Control" = some hdr)
    (hn : searchThrottle service.toList hdr.toList = some n)
    (hn0 : n ≠ 0)
    (hsh : resp.header "X-IndividualQuotaPerHour-Used" = some sh)
    (hsw : resp.header "X-RegisteredQuotaPerWeek-Used" = some sw)
    (hqh : parsePyInt sh = some qh)
    (hqw : parsePyInt sw = some qw) :
    throttledCall st service t2 resp =
      ({ quota_per_hour_used := qh, quota_per_week_used := qw,
         last_call := dictSet st.last_call service (some t2),
         next_call := dictSet st.next_call service
           (some (t2 + (nextDeltaMicros n : Int))) }, .ok resp) := by
  simp only [String.toList] at hn
  simp [throttledCall, hold, herr, hthr, hn, hn0, hsh, hsw, hqh, hqw]

theorem throttledCall_error_status (st : ClientState) (service : String)
    (t2 : Int) (resp : Response)
    (herr : isErrorStatus resp.status = true) :
    (throttledCall st service t2 resp).1.quota_per_hour_used =
        st.quota_per_hour_used ∧
    (throttledCall st service t2 resp).1.quota_per_week_used =
        st.quota_per_week_used ∧
    ∃ e, (throttledCall st service t2 resp).2 = .error e := by
  unfold throttledCall
  cases hlk : (st.last_call.lookup service).isNone with
  | true => simp [hlk]
  | false =>
    by_cases h403 : resp.status = 403
    · cases hq : raise_for_quota_rejection resp with
      | none => simp [hlk, herr, h403, hq, isErrorStatus]
      | some e => simp [hlk, herr, h403, hq, isErrorStatus]
    · simp [hlk, herr, h403]

theorem throttledCall_error_full (st : ClientState) (service : String)
    (old : Option Int) (t2 : Int) (resp : Response)
    (hold : st.last_call.lookup service = some old)
    (herr : isErrorStatus resp.status = true) :
    throttledCall st service t2 resp =
      ({ st with last_call := dictSet st.last_call service (some t2) },
       .error (if resp.status == 403 then
                 (match raise_for_quota_rejection resp with
                  | some e => e
                  | none => .httpError resp)
               else .httpError resp)) := by
  have hlk : (st.last_call.lookup service).isNone = false := by simp [hold]
  unfold throttledCall
  by_cases h403 : resp.status = 403
  · cases hq : raise_for_quota_rejection resp <;>
      simp [hlk, herr, h403, hq, isErrorStatus]
  · simp [hlk, herr, h403]

theorem nextDeltaMicros_eq (n : Nat) (h : n ≠ 0) :
    nextDeltaMicros n = 60000 / n * 1000 := by
  have h1 : 1000 * (60 / n) ≤ 60000 / n := by
    rw [Nat.le_div_iff_mul_le (Nat.pos_of_ne_zero h)]
    calc 1000 * (60 / n) * n = 1000 * (60 / n * n) := by ring
      _ ≤ 1000 * 60 := Nat.mul_le_mul_left 1000 (Nat.div_mul_le_self 60 n)
      _ = 60000 := by norm_num
  show (60 / n * 1000 + (60000 / n - 1000 * (60 / n))) * 1000 = 60000 / n * 1000
  generalize hA : 60 / n = a at h1 ⊢
  generalize hB : 60000 / n = b at h1 ⊢
  omega

theorem fetch_dispatch (st : ClientState) (service : Services)
    (ref_type : ReferenceType) (arg : ApiInputArg) (endpoint : String)
    (options : List String) (t2 : Int) (resp : Response) (input_text : String)
    (t : String)
    (hep : VALID_ENDPOINTS.contains endpoint = true)
    (hit : inputText arg = .ok input_text)
    (hty : idTypes arg = [t]) :
    fetch st service ref_type arg endpoint options t2 resp =
      (match throttledCall st "retrieval" t2 resp with
       | (st1, .error (.httpError r)) =>
         if r.status == 404 then (st1, .error (.fetchFailed input_text))
         else (st1, .error (.httpError r))
       | (st1, .error e) => (st1, .error e)
       | (st1, .ok r) => (st1, .ok r)) := by
  have hmem : endpoint ∈ VALID_ENDPOINTS := (contains_iff_mem _ _).mp hep
  unfold fetch
  simp [hmem, hit, hty]

/-! ### Claim theorems -/

/-- Claim C1: for every `APIInput` accepted by the constructor,
`to_id` returns exactly the string prescribed by the formatting rules
of spec section 4.2 (formalised by `specToId`), and in particular the
two end-to-end scenarios produce `"EP.1000000.A1.20000517"` and
`"(1000000,5)"`. -/
theorem to_id_follows_spec_format :
    (∀ (it n : String) (k c d : Option String) (a : APIInput),
        APIInput.init it n k c d = .ok a → a.to_id = Except.ok (specToId a))
    ∧ APIInput.to_id ⟨"docdb", "1000000", some "A1", some "EP", some "20000517"⟩
        = Except.ok "EP.1000000.A1.20000517"
    ∧ APIInput.to_id ⟨"epodoc", "1000000,5", none, none, none⟩
        = Except.ok "(1000000,5)" := by
  refine ⟨?_, by rfl, by rfl⟩
  intro it n k c d a h
  obtain ⟨ha, hc⟩ := init_ok_inv h
  subst ha
  exact to_id_eq_spec_of_valid _ hc

theorem to_id_follows_spec_format_witness :
    APIInput.to_id ⟨"docdb", "1000000", some "A1", some "EP", some "20000517"⟩ =
      Except.ok (specToId ⟨"docdb", "1000000", some "A1", some "EP", some "20000517"⟩) :=
  to_id_follows_spec_format.1 "docdb" "1000000" (some "A1") (some "EP")
    (some "20000517") _ (by rfl)

/-- Claim C2, counterexample: with the quota counters at 5 and 7, a
dispatched call answered by a 500 response that carries both quota
headers leaves the counters at 5 and 7 (and raises the generic HTTP
failure), so the counters are not overwritten on error responses even
when the headers are present. -/
theorem quota_not_updated_on_error :
    (throttledCall ⟨5, 7, initBuckets, initBuckets⟩ "retrieval" 1000
        errRetrievalResponse).1.quota_per_hour_used = 5
    ∧ (throttledCall ⟨5, 7, initBuckets, initBuckets⟩ "retrieval" 1000
        errRetrievalResponse).1.quota_per_week_used = 7
    ∧ (throttledCall ⟨5, 7, initBuckets, initBuckets⟩ "retrieval" 1000
        errRetrievalResponse).2 = .error (.httpError errRetrievalResponse) :=
  ⟨by rfl, by rfl, by rfl⟩

/-- Claim C2, amended: after every dispatched call that does not raise
(status outside 400..599 and all four headers readable), the quota
counters are overwritten with the integer values of the hourly-quota
and weekly-quota headers, independently of their previous values
(never summed); on every error-status response the dispatch raises
before the quota update and both counters keep their previous
values. -/
theorem quota_counters_overwritten :
    (∀ (st : ClientState) (service : String) (old : Option Int) (t2 : Int)
        (resp : Response) (hdr : String) (n : Nat) (sh sw : String) (qh qw : Int),
      st.last_call.lookup service = some old →
      isErrorStatus resp.status = false →
      resp.header "X-Throttling-Control" = some hdr →
      searchThrottle service.toList hdr.toList = some n →
      n ≠ 0 →
      resp.header "X-IndividualQuotaPerHour-Used" = some sh →
      resp.header "X-RegisteredQuotaPerWeek-Used" = some sw →
      parsePyInt sh = some qh →
      parsePyInt sw = some qw →
      (throttledCall st service t2 resp).1.quota_per_hour_used = qh ∧
      (throttledCall st service t2 resp).1.quota_per_week_used = qw)
    ∧ (∀ (st : ClientState) (service : String) (t2 : Int) (resp : Response),
      isErrorStatus resp.status = true →
      (throttledCall st service t2 resp).1.quota_per_hour_used =
          st.quota_per_hour_used ∧
      (throttledCall st service t2 resp).1.quota_per_week_used =
          st.quota_per_week_used) := by
  constructor
  · intro st service old t2 resp hdr n sh sw qh qw hold herr hthr hn hn0 hsh hsw hqh hqw
    rw [throttledCall_success st service old t2 resp hdr n sh sw qh qw hold
      herr hthr hn hn0 hsh hsw hqh hqw]
    exact ⟨rfl, rfl⟩
  · intro st service t2 resp herr
    exact ⟨(throttledCall_error_status st service t2 resp herr).1,
           (throttledCall_error_status st service t2 resp herr).2.1⟩

theorem quota_counters_overwritten_witness :
    (throttledCall ⟨5, 7, initBuckets, initBuckets⟩ "retrieval" 1000
        okRetrievalResponse).1.quota_per_hour_used = 11
    ∧ (throttledCall ⟨5, 7, initBuckets, initBuckets⟩ "retrieval" 1000
        okRetrievalResponse).1.quota_per_week_used = 222 :=
  quota_counters_overwritten.1 ⟨5, 7, initBuckets, initBuckets⟩ "retrieval"
    none 1000 okRetrievalResponse "retrieval=green:7" 7 "11" "222" 11 222
    (by rfl) (by rfl) (by rfl) (by rfl) (by decide) (by rfl) (by rfl)
    (by rfl) (by rfl)

/-- Claim C3, counterexample: a dispatch to the "retrieval" bucket at
time 0 whose response advertises 7 calls per minute records the next
allowed call at 8571000 microseconds, which is not `60/7` seconds
after the recorded last-call time, since `8571000 * 7` differs from
`60000000`: the delay is truncated to whole milliseconds. -/
theorem throttle_delay_truncated :
    (throttledCall ClientState.initial "retrieval" 0
        okRetrievalResponse).1.last_call.lookup "retrieval" = some (some 0)
    ∧ (throttledCall ClientState.initial "retrieval" 0
        okRetrievalResponse).1.next_call.lookup "retrieval" = some (some 8571000)
    ∧ (8571000 : Int) * 7 ≠ 60000000 :=
  ⟨by rfl, by rfl, by decide⟩

/-- Claim C3, amended: for every successful dispatch to a valid bucket
whose rate-control header parses to `n` calls per minute, the dispatch
sets the last-call time of the bucket to the moment `t2` immediately
before the HTTP request was issued and sets the next allowed call time
to `t2` plus `60/n` seconds truncated to whole milliseconds, that is
`(60000 / n) * 1000` microseconds (in the exact-rational model of the
float arithmetic of the source). -/
theorem throttle_schedule :
    ∀ (st : ClientState) (service : String) (old : Option Int) (t2 : Int)
      (resp : Response) (hdr : String) (n : Nat) (sh sw : String) (qh qw : Int),
      st.last_call.lookup service = some old →
      isErrorStatus resp.status = false →
      resp.header "X-Throttling-Control" = some hdr →
      searchThrottle service.toList hdr.toList = some n →
      n ≠ 0 →
      resp.header "X-IndividualQuotaPerHour-Used" = some sh →
      resp.header "X-RegisteredQuotaPerWeek-Used" = some sw →
      parsePyInt sh = some qh →
      parsePyInt sw = some qw →
      (throttledCall st service t2 resp).1.last_call.lookup service =
          some (some t2)
      ∧ (throttledCall st service t2 resp).1.next_call.lookup service =
          some (some (t2 + (nextDeltaMicros n : Int)))
      ∧ nextDeltaMicros n = 60000 / n * 1000 := by
  intro st service old t2 resp hdr n sh sw qh qw hold herr hthr hn hn0 hsh hsw hqh hqw
  rw [throttledCall_success st service old t2 resp hdr n sh sw qh qw hold
    herr hthr hn hn0 hsh hsw hqh hqw]
  exact ⟨lookup_dictSet_self _ _ _, lookup_dictSet_self _ _ _,
    nextDeltaMicros_eq n hn0⟩

theorem throttle_schedule_witness :
    (throttledCall ClientState.initial "retrieval" 1000
        okRetrievalResponse).1.last_call.lookup "retrieval" = some (some 1000)
    ∧ (throttledCall ClientState.initial "retrieval" 1000
        okRetrievalResponse).1.next_call.lookup "retrieval" =
        some (some (1000 + (nextDeltaMicros 7 : Int)))
    ∧ nextDeltaMicros 7 = 60000 / 7 * 1000 :=
  throttle_schedule ClientState.initial "retrieval" none 1000
    okRetrievalResponse "retrieval=green:7" 7 "11" "222" 11 222
    (by rfl) (by rfl) (by rfl) (by rfl) (by decide) (by rfl) (by rfl)
    (by rfl) (by rfl)

/-- Claim C4: when a bucket has a recorded next-allowed-call time in
the future (by less than one day, which covers every time the
dispatcher itself records, as recorded delays are at most 60 seconds),
the dispatcher sleeps for exactly the remaining duration, so the HTTP
request is issued exactly at the recorded time, never before; when the
recorded time has passed, or no call was recorded yet for the bucket,
no wait happens. -/
theorem throttle_wait_exact :
    (∀ (st : ClientState) (service : String) (now nc : Int),
      st.next_call.lookup service = some (some nc) →
      now < nc → nc - now < (microsPerDay : Int) →
      throttleSleepMicros st service now = (nc - now).toNat ∧
      dispatchTime st service now = nc)
    ∧ (∀ (st : ClientState) (service : String) (now nc : Int),
      st.next_call.lookup service = some (some nc) → nc ≤ now →
      throttleSleepMicros st service now = 0)
    ∧ (∀ (st : ClientState) (service : String) (now : Int),
      st.next_call.lookup service = some none →
      throttleSleepMicros st service now = 0) := by
  have hd : microsPerDay = 86400000000 := rfl
  refine ⟨?_, ?_, ?_⟩
  · intro st service now nc hlk hlt hday
    have h2 : (nc - now).toNat < microsPerDay := by omega
    have hs : throttleSleepMicros st service now = (nc - now).toNat := by
      simp [throttleSleepMicros, timedeltaSleepMicros, hlk, hlt,
        Nat.mod_eq_of_lt h2]
    refine ⟨hs, ?_⟩
    unfold dispatchTime
    rw [hs]
    omega
  · intro st service now nc hlk hge
    simp only [throttleSleepMicros, hlk]
    rw [if_neg (not_lt.mpr hge)]
  · intro st service now hlk
    simp only [throttleSleepMicros, hlk]

theorem throttle_wait_exact_witness :
    (throttleSleepMicros scheduledState "search" 1000 =
        ((5000 : Int) - 1000).toNat
      ∧ dispatchTime scheduledState "search" 1000 = 5000)
    ∧ throttleSleepMicros scheduledState "retrieval" 1000 = 0 :=
  ⟨throttle_wait_exact.1 scheduledState "search" 1000 5000 (by rfl)
      (by decide) (by decide),
   throttle_wait_exact.2.2 scheduledState "retrieval" 1000 (by rfl)⟩

/-- Claim C5: a dispatched call answered with status 403 fails with
`QuotaPerWeekExceeded` when the rejection-reason header equals
`RegisteredQuotaPerWeek`, with `QuotaPerHourExceeded` when it equals
`IndividualQuotaPerHour`, and with the generic HTTP failure when the
header holds any other value or is missing. -/
theorem forbidden_status_mapping :
    ∀ (st : ClientState) (service : String) (old : Option Int) (t2 : Int)
      (resp : Response),
      st.last_call.lookup service = some old →
      resp.status = 403 →
      ((resp.header "X-Rejection-Reason" = some "RegisteredQuotaPerWeek" →
          (throttledCall st service t2 resp).2 =
            .error (.quotaPerWeekExceeded resp.text))
       ∧ (resp.header "X-Rejection-Reason" = some "IndividualQuotaPerHour" →
          (throttledCall st service t2 resp).2 =
            .error (.quotaPerHourExceeded resp.text))
       ∧ (∀ v, resp.header "X-Rejection-Reason" = some v →
            ¬ v = "RegisteredQuotaPerWeek" → ¬ v = "IndividualQuotaPerHour" →
            (throttledCall st service t2 resp).2 = .error (.httpError resp))
       ∧ (resp.header "X-Rejection-Reason" = none →
          (throttledCall st service t2 resp).2 = .error (.httpError resp))) := by
  intro st service old t2 resp hold h403
  have herr : isErrorStatus resp.status = true := by
    simp [isErrorStatus, h403]
  refine ⟨?_, ?_, ?_, ?_⟩
  · intro hh
    rw [throttledCall_error_full st service old t2 resp hold herr]
    simp [raise_for_quota_rejection, h403, hh]
  · intro hh
    rw [throttledCall_error_full st service old t2 resp hold herr]
    simp [raise_for_quota_rejection, h403, hh]
  · intro v hh hv1 hv2
    rw [throttledCall_error_full st service old t2 resp hold herr]
    simp [raise_for_quota_rejection, h403, hh, hv1, hv2]
  · intro hh
    rw [throttledCall_error_full st service old t2 resp hold herr]
    simp [raise_for_quota_rejection, h403, hh]

theorem forbidden_status_mapping_witness :
    (throttledCall ClientState.initial "retrieval" 1000
        forbiddenWeekResponse).2 = .error (.quotaPerWeekExceeded "denied") :=
  (forbidden_status_mapping ClientState.initial "retrieval" none 1000
    forbiddenWeekResponse (by rfl) (by rfl)).1 (by rfl)

/-- Claim C6, counterexample: a fetch whose dispatch returns a 404
fails with `FetchFailed`, not with `ResourceNotFound`; moreover a 403
response carrying a recognized rejection reason fails with the quota
error rather than the generic HTTP failure, and a 303 response (also
non-2xx) does not raise at all, so the claim as stated fails on these
inputs. -/
theorem fetch_404_raises_fetchFailed :
    (fetch ClientState.initial Services.Published ReferenceType.Publication
        sampleInput "biblio" [] 1000 notFoundResponse).2 =
      .error (.fetchFailed "EP.1000000.A1")
    ∧ ((match (fetch ClientState.initial Services.Published
          ReferenceType.Publication sampleInput "biblio" [] 1000
          notFoundResponse).2 with
        | .error e => e.isResourceNotFound
        | _ => false) = false)
    ∧ (fetch ClientState.initial Services.Published ReferenceType.Publication
        sampleInput "biblio" [] 1000 forbiddenWeekResponse).2 =
      .error (.quotaPerWeekExceeded "denied")
    ∧ (fetch ClientState.initial Services.Published ReferenceType.Publication
        sampleInput "biblio" [] 1000 redirectResponse).2 = .ok redirectResponse :=
  ⟨by rfl, by rfl, by rfl, by rfl⟩

/-- Claim C6, amended: a fetch whose dispatch returns status 404 fails
with the distinguished `FetchFailed` error carrying the input text;
every other 4xx or 5xx status propagates as the generic HTTP failure
carrying the original response, except that a 403 whose
rejection-reason header holds one of the two recognized quota values
fails with the corresponding quota error. -/
theorem fetch_error_mapping :
    ∀ (st : ClientState) (service : Services) (ref_type : ReferenceType)
      (arg : ApiInputArg) (endpoint : String) (options : List String)
      (t2 : Int) (resp : Response) (input_text t : String) (old : Option Int),
      VALID_ENDPOINTS.contains endpoint = true →
      inputText arg = .ok input_text →
      idTypes arg = [t] →
      st.last_call.lookup "retrieval" = some old →
      ((resp.status = 404 →
        (fetch st service ref_type arg endpoint options t2 resp).2 =
          .error (.fetchFailed input_text))
      ∧ (isErrorStatus resp.status = true → ¬ resp.status = 404 →
          ¬ resp.status = 403 →
        (fetch st service ref_type arg endpoint options t2 resp).2 =
          .error (.httpError resp))
      ∧ (resp.status = 403 → raise_for_quota_rejection resp = none →
        (fetch st service ref_type arg endpoint options t2 resp).2 =
          .error (.httpError resp))
      ∧ (resp.status = 403 →
          resp.header "X-Rejection-Reason" = some "RegisteredQuotaPerWeek" →
        (fetch st service ref_type arg endpoint options t2 resp).2 =
          .error (.quotaPerWeekExceeded resp.text))
      ∧ (resp.status = 403 →
          resp.header "X-Rejection-Reason" = some "IndividualQuotaPerHour" →
        (fetch st service ref_type arg endpoint options t2 resp).2 =
          .error (.quotaPerHourExceeded resp.text))) := by
  intro st service ref_type arg endpoint options t2 resp input_text t old
    hep hit hty hold
  refine ⟨?_, ?_, ?_, ?_, ?_⟩
  · intro h404
    rw [fetch_dispatch st service ref_type arg endpoint options t2 resp
      input_text t hep hit hty]
    rw [throttledCall_error_full st "retrieval" old t2 resp hold
      (by simp [isErrorStatus, h404])]
    simp [h404]
  · intro herr h404 h403
    rw [fetch_dispatch st service ref_type arg endpoint options t2 resp
      input_text t hep hit hty]
    rw [throttledCall_error_full st "retrieval" old t2 resp hold herr]
    simp [h404, h403]
  · intro h403 hq
    rw [fetch_dispatch st service ref_type arg endpoint options t2 resp
      input_text t hep hit hty]
    rw [throttledCall_error_full st "retrieval" old t2 resp hold
      (by simp [isErrorStatus, h403])]
    simp [h403, hq]
  · intro h403 hh
    rw [fetch_dispatch st service ref_type arg endpoint options t2 resp
      input_text t hep hit hty]
    rw [throttledCall_error_full st "retrieval" old t2 resp hold
      (by simp [isErrorStatus, h403])]
    simp [h403, raise_for_quota_rejection, hh]
  · intro h403 hh
    rw [fetch_dispatch st service ref_type arg endpoint options t2 resp
      input_text t hep hit hty]
    rw [throttledCall_error_full st "retrieval" old t2 resp hold
      (by simp [isErrorStatus, h403])]
    simp [h403, raise_for_quota_rejection, hh]

theorem fetch_error_mapping_witness :
    (fetch ClientState.initial Services.Published ReferenceType.Publication
        sampleInput "biblio" [] 1000 notFoundResponse).2 =
      .error (.fetchFailed "EP.1000000.A1") :=
  (fetch_error_mapping ClientState.initial Services.Published
    ReferenceType.Publication sampleInput "biblio" [] 1000 notFoundResponse
    "EP.1000000.A1" "docdb" none (by rfl) (by rfl) (by rfl) (by rfl)).1 (by rfl)

/-- Claim C7: `APIInput` construction fails with a `ValueError`
exactly when the id-type is unrecognized, the country or kind is
present but blank, or the date is present but is not a valid 8-digit
YYYYMMDD calendar date; otherwise the constructed value stores the
given fields unchanged. -/
theorem init_validation_exact :
    (∀ (it n : String) (k c d : Option String),
      (∃ m, APIInput.init it n k c d = .error (.valueError m)) ↔
        (¬ it ∈ VALID_IDTYPES ∨
         (∃ s, c = some s ∧ isBlank s = true) ∨
         (∃ s, k = some s ∧ isBlank s = true) ∨
         (∃ s, d = some s ∧ validDate8 s = false)))
    ∧ (∀ (it n : String) (k c d : Option String) (a : APIInput),
        APIInput.init it n k c d = .ok a → a = ⟨it, n, k, c, d⟩) := by
  constructor
  · intro it n k c d
    rw [init_error_iff]
    rw [badDate_iff, presentBlank_iff, presentBlank_iff]
    constructor
    · rintro (h | h | h | h)
      · refine Or.inl (fun hm => ?_)
        rw [(contains_iff_mem VALID_IDTYPES it).mpr hm] at h
        cases h
      · exact Or.inr (Or.inr (Or.inr h))
      · exact Or.inr (Or.inl h)
      · exact Or.inr (Or.inr (Or.inl h))
    · rintro (h | h | h | h)
      · exact Or.inl (by
          cases hc : VALID_IDTYPES.contains it
          · rfl
          · exact absurd ((contains_iff_mem VALID_IDTYPES it).mp hc) h)
      · exact Or.inr (Or.inr (Or.inl h))
      · exact Or.inr (Or.inr (Or.inr h))
      · exact Or.inr (Or.inl h)
  · intro it n k c d a h
    exact (init_ok_inv h).1

theorem init_validation_exact_witness :
    APIInput.init "docdb" "1000000" none none none =
      .ok ⟨"docdb", "1000000", none, none, none⟩ →
      (⟨"docdb", "1000000", none, none, none⟩ : APIInput) =
        ⟨"docdb", "1000000", none, none, none⟩ := by
  exact init_validation_exact.2 "docdb" "1000000" none none none _

/-- Claim C8, counterexample: constructing an `APIInput` with the
empty string as number succeeds, so the constructor does not reject an
empty number. -/
theorem empty_number_accepted_cex :
    APIInput.init "docdb" "" none none none =
      .ok ⟨"docdb", "", none, none, none⟩ := by
  rfl

/-- Claim C8, amended: the number field is never validated: for every
valid id-type, construction with the empty string as number (and no
optional fields) succeeds and stores the empty string. -/
theorem empty_number_accepted (it : String) (h : it ∈ VALID_IDTYPES) :
    APIInput.init it "" none none none = .ok ⟨it, "", none, none, none⟩ := by
  unfold APIInput.init
  have hc : VALID_IDTYPES.contains it = true := (contains_iff_mem _ _).mpr h
  simp [hc, h, badDate, presentBlank]

theorem empty_number_accepted_witness :
    APIInput.init "epodoc" "" none none none =
      .ok ⟨"epodoc", "", none, none, none⟩ :=
  empty_number_accepted "epodoc" (by decide)

/-- Claim C9: evidence for the precedence slip in the fetch-range
validation of `search`: the 2-tuple of strings `("a", "b")` is not
rejected, the range header is built as `"a-b"`, and the call
dispatches to the "search" bucket (recording a last-call time), while
a 3-tuple of ints is rejected; the claim that every non-2-tuple-of-ints
fails before any HTTP call is therefore violated by the code. -/
theorem search_range_validation_slip :
    fetchRangeRejected [PyVal.str "a", PyVal.str "b"] = false
    ∧ rangeHeaderValue [PyVal.str "a", PyVal.str "b"] = .ok "a-b"
    ∧ (search ClientState.initial "q" [PyVal.str "a", PyVal.str "b"]
        Services.PublishedSearch [""] 1000 okSearchResponse).2 =
        .ok okSearchResponse
    ∧ (search ClientState.initial "q" [PyVal.str "a", PyVal.str "b"]
        Services.PublishedSearch [""] 1000 okSearchResponse).1.last_call.lookup
        "search" = some (some 1000)
    ∧ rangeHeaderValue [PyVal.int 5, PyVal.int 24] = .ok "5-24"
    ∧ fetchRangeRejected [PyVal.int 1, PyVal.int 2, PyVal.int 3] = true :=
  ⟨by rfl, by rfl, by rfl, by rfl, by rfl, by rfl⟩

/-- Claim C10, counterexample: the epodoc input with a date is
accepted by the (identical) constructors of both modules, yet the two
`to_id` implementations disagree on it: the top-level module inserts a
period before the date and the ops module does not. -/
theorem to_id_variants_differ :
    APIInput.init "epodoc" "1000000" (some "A1") (some "EP") (some "20000517") =
      .ok ⟨"epodoc", "1000000", some "A1", some "EP", some "20000517"⟩
    ∧ APIInput.to_id ⟨"epodoc", "1000000", some "A1", some "EP", some "20000517"⟩ =
        Except.ok "EP1000000A1.20000517"
    ∧ APIInput.ops_to_id ⟨"epodoc", "1000000", some "A1", some "EP", some "20000517"⟩ =
        Except.ok "EP1000000A120000517"
    ∧ ("EP1000000A1.20000517" : String) ≠ "EP1000000A120000517" :=
  ⟨by rfl, by rfl, by rfl, by decide⟩

/-- Claim C10, amended: the two `to_id` implementations agree on every
input whose id-type is not epodoc or whose date is absent; they differ
exactly on epodoc inputs with a date. -/
theorem to_id_variants_agree (a : APIInput)
    (h : a.id_type ≠ "epodoc" ∨ a.date = none) :
    a.to_id = a.ops_to_id := by
  unfold APIInput.to_id APIInput.ops_to_id
  rcases h with h | h
  · have hb : (a.id_type == "epodoc") = false := by simpa using h
    rw [hb]
    rfl
  · rw [h]

theorem to_id_variants_agree_witness :
    APIInput.to_id ⟨"docdb", "1000000", some "A1", some "EP", some "20000517"⟩ =
      APIInput.ops_to_id ⟨"docdb", "1000000", some "A1", some "EP", some "20000517"⟩ :=
  to_id_variants_agree _ (Or.inl (by decide))

end EpoUtils
